import Mathlib

/-!
Verification of the GICv3 bare-metal driver
(`src/exercises/bare-metal/rtc/src/gicv3.rs` and `main.rs`).

Part 1: the `repr(C)` layout of the three register-block structures
`GICD`, `GICR` and `SGI`.  Each Rust field is transcribed as a
`RegField` carrying its byte size and alignment (`u32`: 4/4, `u64`: 8/8,
`[u8; n]`: n/1, the `repr(transparent)` `Waker` wrapper over `u32`: 4/4).
The `repr(C)` algorithm places each field at the current offset rounded
up to the field's alignment, and rounds the final size up to the struct
alignment (8, from `align(8)`).
-/

/-- One field of a `repr(C)` struct: name, size in bytes, alignment. -/
structure RegField where
  name : String
  size : Nat
  align : Nat
deriving Repr, DecidableEq

/-- Round `off` up to the next multiple of `a`. -/
def alignUp (off a : Nat) : Nat := (off + a - 1) / a * a

/-- The `repr(C)` field offsets: each field goes at the current offset
rounded up to its alignment. -/
def layoutOffsets : Nat → List RegField → List (String × Nat)
  | _, [] => []
  | off, f :: fs =>
    let o := alignUp off f.align
    (f.name, o) :: layoutOffsets (o + f.size) fs

/-- Offset just past the last field under the `repr(C)` placement. -/
def layoutEnd : Nat → List RegField → Nat
  | off, [] => off
  | off, f :: fs => layoutEnd (alignUp off f.align + f.size) fs

/-- Total `repr(C)` struct size: the end offset rounded up to the struct
alignment `a`. -/
def structSize (a : Nat) (fs : List RegField) : Nat := alignUp (layoutEnd 0 fs) a

/-- Sum of the field sizes alone: the size the struct would have with no
compiler-inserted padding at all. -/
def sumSizes (fs : List RegField) : Nat := (fs.map RegField.size).sum

/-- Byte offset of the named field. -/
def offsetOf (fs : List RegField) (n : String) : Option Nat :=
  (layoutOffsets 0 fs).lookup n

/-- A `u32` field. -/
def fu32 (n : String) : RegField := ⟨n, 4, 4⟩

/-- A `u64` field. -/
def fu64 (n : String) : RegField := ⟨n, 8, 8⟩

/-- A `[u32; k]` field. -/
def fu32arr (n : String) (k : Nat) : RegField := ⟨n, 4 * k, 4⟩

/-- A `[u8; k]` field. -/
def fu8arr (n : String) (k : Nat) : RegField := ⟨n, k, 1⟩

/-- The fields of the Rust `GICD` struct (`gicv3.rs` lines 49-157), in
declaration order with the exact array lengths of the source. -/
def gicdFields : List RegField :=
  [fu32 "ctlr", fu32 "typer", fu32 "iidr", fu32 "typer2", fu32 "statusr",
   fu32arr "_reserved0" 3, fu32arr "implementation_defined" 8,
   fu32 "setspi_nsr", fu32 "_reserved1", fu32 "clrspi_nsr", fu32 "_reserved2",
   fu32 "setspi_sr", fu32 "_reserved3", fu32 "clrspi_sr",
   fu32arr "_reserved4" 9,
   fu32arr "igroupr" 32, fu32arr "isenabler" 32, fu32arr "icenabler" 32,
   fu32arr "ispendr" 32, fu32arr "icpendr" 32, fu32arr "isactiver" 32,
   fu32arr "icactiver" 32,
   fu8arr "ipriorityr" 1024,
   fu32arr "itargetsr" 256, fu32arr "icfgr" 64, fu32arr "igrpmodr" 32,
   fu32arr "_reserved5" 32, fu32arr "nsacr" 64, fu32 "sigr",
   fu32arr "_reserved6" 3, fu32arr "cpendsgir" 4, fu32arr "spendsgir" 4,
   fu32arr "_reserved7" 20, fu32arr "inmir" 32,
   fu32arr "igroupr_e" 32, fu32arr "_reserved8" 96,
   fu32arr "isenabler_e" 32, fu32arr "_reserved9" 96,
   fu32arr "icenabler_e" 32, fu32arr "_reserved10" 96,
   fu32arr "ispendr_e" 32, fu32arr "_reserved11" 96,
   fu32arr "icpendr_e" 32, fu32arr "_reserved12" 96,
   fu32arr "isactive_e" 32, fu32arr "_reserved13" 96,
   fu32arr "icactive_e" 32, fu32arr "_reserved14" 224,
   fu8arr "ipriorityr_e" 1024, fu32arr "_reserved15" 768,
   fu32arr "icfgr_e" 64, fu32arr "_reserved16" 192,
   fu32arr "igrpmodr_e" 32, fu32arr "_reserved17" 96,
   fu32arr "nsacr_e" 32, fu32arr "_reserved18" 288,
   fu32arr "inmr_e" 32, fu32arr "_reserved19" 2400,
   fu32arr "irouter" 1975, fu32arr "_reserved20" 9,
   fu32arr "irouter_e" 2048, fu32arr "_reserved21" 2048,
   fu32arr "implementation_defined2" 4084, fu32arr "id_registers" 12]

/-- The fields of the Rust `GICR` struct (`gicv3.rs` lines 168-215).  The
`waker` field is the `repr(transparent)` `Waker` wrapper over `u32`. -/
def gicrFields : List RegField :=
  [fu32 "ctlr", fu32 "iidr", fu64 "typer", fu32 "statusr", fu32 "waker",
   fu32 "mpamidr", fu32 "partidr", fu32arr "implementation_defined1" 8,
   fu64 "setlprir", fu64 "clrlpir", fu32arr "_reserved0" 8,
   fu64 "propbaser", fu64 "pendbaser", fu32arr "_reserved1" 8,
   fu64 "invlpir", fu64 "_reserved2", fu64 "invallr", fu64 "_reserved3",
   fu32 "syncr", fu32arr "_reserved4" 15,
   fu64 "implementation_defined2", fu64 "_reserved5",
   fu64 "implementation_defined3", fu32arr "_reserved6" 12218,
   fu32arr "implementation_defined4" 4084, fu32arr "id_registers" 12]

/-- The fields of the Rust `SGI` struct (`gicv3.rs` lines 217-283). -/
def sgiFields : List RegField :=
  [fu32arr "_reserved0" 32,
   fu32 "igroupr0", fu32arr "igroupr_e" 2, fu32arr "_reserved1" 29,
   fu32 "isenabler0", fu32arr "isenabler_e" 2, fu32arr "_reserved2" 29,
   fu32 "icenabler0", fu32arr "icenabler_e" 2, fu32arr "_reserved3" 29,
   fu32 "ispendr0", fu32arr "ispendr_e" 2, fu32arr "_reserved4" 29,
   fu32 "icpendr0", fu32arr "icpendr_e" 2, fu32arr "_reserved5" 29,
   fu32 "isactiver0", fu32arr "isactive_e" 2, fu32arr "_reserved6" 29,
   fu32 "icactiver0", fu32arr "icactive_e" 2, fu32arr "_reserved7" 29,
   fu8arr "ipriorityr" 32, fu8arr "ipriorityr_e" 64,
   fu32arr "_reserved8" 488,
   fu32 "icfgr0", fu32 "icfgr1", fu32arr "icfgr_e" 4, fu32arr "_reserved9" 58,
   fu32 "igrpmodr0", fu32arr "igrpmodr_e" 2, fu32arr "_reserved10" 61,
   fu32 "nsacr", fu32arr "_reserved11" 95,
   fu32 "inmir0", fu32arr "inmir_e" 31,
   fu32arr "_reserved12" 11264,
   fu32arr "implementation_defined" 4084, fu32arr "_reserved13" 12]

/-- C1: each of GICD, GICR and SGI has `repr(C)` size exactly 0x10000
bytes, the named fields sit at their architecturally defined offsets
(GICD.igroupr at 0x080, GICD.ipriorityr at 0x400, GICD.irouter_e at
0x8000, GICR.waker at 0x14, SGI.igroupr0 at 0x080, SGI.ipriorityr at
0x400, SGI.icfgr0 at 0xC00), and the `repr(C)` size of every block
equals the plain sum of its field sizes, so the compiler inserts no
padding anywhere. -/
theorem gic_register_blocks_layout_exact :
    structSize 8 gicdFields = 0x10000 ∧
    structSize 8 gicrFields = 0x10000 ∧
    structSize 8 sgiFields = 0x10000 ∧
    offsetOf gicdFields "ctlr" = some 0x0 ∧
    offsetOf gicdFields "igroupr" = some 0x080 ∧
    offsetOf gicdFields "isenabler" = some 0x100 ∧
    offsetOf gicdFields "ispendr" = some 0x200 ∧
    offsetOf gicdFields "isactiver" = some 0x300 ∧
    offsetOf gicdFields "ipriorityr" = some 0x400 ∧
    offsetOf gicdFields "icfgr" = some 0xC00 ∧
    offsetOf gicdFields "irouter" = some 0x6100 ∧
    offsetOf gicdFields "irouter_e" = some 0x8000 ∧
    offsetOf gicrFields "ctlr" = some 0x0 ∧
    offsetOf gicrFields "typer" = some 0x8 ∧
    offsetOf gicrFields "waker" = some 0x14 ∧
    offsetOf sgiFields "igroupr0" = some 0x080 ∧
    offsetOf sgiFields "isenabler0" = some 0x100 ∧
    offsetOf sgiFields "ispendr0" = some 0x200 ∧
    offsetOf sgiFields "ipriorityr" = some 0x400 ∧
    offsetOf sgiFields "icfgr0" = some 0xC00 ∧
    offsetOf sgiFields "icfgr1" = some 0xC04 ∧
    structSize 8 gicdFields = sumSizes gicdFields ∧
    structSize 8 gicrFields = sumSizes gicrFields ∧
    structSize 8 sgiFields = sumSizes sgiFields := by
  set_option maxRecDepth 4000 in decide

/-!
Part 2: the driver state and operations.

`GicState` is the shallow state of the machine as the driver sees it: the
CPU system registers written through `write_sysreg!`, and the
memory-mapped registers of the three blocks that the driver code
touches.  Register arrays are modelled as functions from word (or byte)
index to value.  Reads of the Redistributor `waker` register can change
asynchronously under hardware control, so `setup` takes an environment
`env : Nat → Nat` giving the value observed by its k-th `waker` read.
`setup` also returns the trace of system-register and MMIO operations it
performs, in program order, so ordering claims can be stated.
-/

/-- The machine state visible to the driver. -/
structure GicState where
  icc_ctlr_el1 : Nat
  icc_igrpen1_el1 : Nat
  icc_sgi1r_el1 : Nat
  gicd_ctlr : Nat
  gicd_igroupr : Nat → Nat
  gicd_igroupr_e : Nat → Nat
  gicd_ipriorityr : Nat → Nat
  gicd_ipriorityr_e : Nat → Nat
  gicd_icfgr : Nat → Nat
  gicd_ispendr : Nat → Nat
  gicd_isactiver : Nat → Nat
  gicr_waker : Nat
  sgi_igroupr0 : Nat
  sgi_igroupr_e : Nat → Nat
  sgi_ipriorityr : Nat → Nat
  sgi_icfgr : Nat → Nat
  sgi_ispendr0 : Nat
  sgi_isactiver0 : Nat

/-- One system-register or MMIO operation performed by `setup`, with the
value read or written. -/
inductive MmioEvent
  | readIccCtlr (v : Nat)
  | writeIccCtlr (v : Nat)
  | writeGicdCtlr (v : Nat)
  | readWaker (v : Nat)
  | writeWaker (v : Nat)
  | writeGicdIgroupr (i v : Nat)
  | writeIccIgrpen1 (v : Nat)
deriving Repr, DecidableEq

/-- `Waker::PROCESSOR_SLEEP = 1 << 1` (`gicv3.rs` line 164). -/
def PROCESSOR_SLEEP : Nat := 1 <<< 1

/-- `Waker::CHILDREN_ASLEEP = 1 << 2` (`gicv3.rs` line 163). -/
def CHILDREN_ASLEEP : Nat := 1 <<< 2

/-- All 32 bits of a `u32`. -/
def U32_MASK : Nat := 0xffffffff

/-- The bitflags difference `v - bits` used by `waker -= PROCESSOR_SLEEP`:
`self.bits & !other.bits` with `!` the `u32` complement, so every bit of
`v` outside `bits` (known flag or not) is retained. -/
def wakerRemove (v bits : Nat) : Nat := v &&& (U32_MASK ^^^ bits)

/-- `GicV3::setup` (`gicv3.rs` lines 301-334), as a state transformer
plus operation trace.  In program order the body: logs a read of
`icc_ctlr_el1`, writes it to 0, logs it again; writes
`gicd.ctlr = 0x1 << 4 | 0x1 << 1` with `write_volatile`; reads `waker`
(the value the hardware presents, `env 0`), removes `PROCESSOR_SLEEP`
from it, writes it back with `write_volatile`, and reads `waker` once
more for the log (`env 1`) - there is no polling loop in the source;
writes `gicd.igroupr[0] = 0xffffffff`; and writes `icc_igrpen1_el1 = 1`. -/
def GicV3.setup (env : Nat → Nat) (s : GicState) : GicState × List MmioEvent :=
  let ctlr : Nat := 0x1 <<< 4 ||| 0x1 <<< 1
  let w0 := env 0
  let w1 := wakerRemove w0 PROCESSOR_SLEEP
  ({ s with
      icc_ctlr_el1 := 0
      gicd_ctlr := ctlr
      gicr_waker := w1
      gicd_igroupr := fun i => if i = 0 then 0xffffffff else s.gicd_igroupr i
      icc_igrpen1_el1 := 1 },
   [MmioEvent.readIccCtlr s.icc_ctlr_el1,
    MmioEvent.writeIccCtlr 0,
    MmioEvent.readIccCtlr 0,
    MmioEvent.writeGicdCtlr ctlr,
    MmioEvent.readWaker w0,
    MmioEvent.writeWaker w1,
    MmioEvent.readWaker (env 1),
    MmioEvent.writeGicdIgroupr 0 0xffffffff,
    MmioEvent.writeIccIgrpen1 1])

/-- Recognises the `waker` reads of a trace. -/
def isReadWaker : MmioEvent → Bool
  | MmioEvent.readWaker _ => true
  | _ => false

/-- Recognises the five bring-up writes of a trace (reads are logging
only). -/
def isSetupAction : MmioEvent → Bool
  | MmioEvent.writeIccCtlr _ => true
  | MmioEvent.writeGicdCtlr _ => true
  | MmioEvent.writeWaker _ => true
  | MmioEvent.writeGicdIgroupr _ _ => true
  | MmioEvent.writeIccIgrpen1 _ => true
  | _ => false

/-- A state with every register zero. -/
def zeroState : GicState where
  icc_ctlr_el1 := 0
  icc_igrpen1_el1 := 0
  icc_sgi1r_el1 := 0
  gicd_ctlr := 0
  gicd_igroupr := fun _ => 0
  gicd_igroupr_e := fun _ => 0
  gicd_ipriorityr := fun _ => 0
  gicd_ipriorityr_e := fun _ => 0
  gicd_icfgr := fun _ => 0
  gicd_ispendr := fun _ => 0
  gicd_isactiver := fun _ => 0
  gicr_waker := 0
  sgi_igroupr0 := 0
  sgi_igroupr_e := fun _ => 0
  sgi_ipriorityr := fun _ => 0
  sgi_icfgr := fun _ => 0
  sgi_ispendr0 := 0
  sgi_isactiver0 := 0

/-- `SGI_OFFSET` (`gicv3.rs` line 47): "The offset in bytes from
`RD_base` to `SGI_base`." -/
def SGI_OFFSET : Nat := 0x10000

/-- `size_of::<u64>()`: the pointee size by which Rust
`<*mut u64>::offset(count)` scales `count` to a byte displacement. -/
def U64_SIZE : Nat := 8

/-- The three block pointers held by the `GicV3` facade, as byte
addresses. -/
structure GicV3 where
  gicd : Nat
  gicr : Nat
  sgi : Nat
deriving Repr, DecidableEq

/-- `GicV3::new` (`gicv3.rs` lines 293-299): `gicd` and `gicr` are the
given bases; `sgi` is `gicr.offset(SGI_OFFSET)` where `gicr` is a
`*mut u64`, so the byte displacement is `SGI_OFFSET * size_of::<u64>()`. -/
def GicV3.new (gicd gicr : Nat) : GicV3 :=
  { gicd := gicd, gicr := gicr, sgi := gicr + SGI_OFFSET * U64_SIZE }

/-- C3 (refutation): at the concrete base addresses of `main.rs`
(`GICD_BASE_ADDRESS = 0x800_0000`, `GICR_BASE_ADDRESS = 0x80A_0000`),
`GicV3::new` binds `gicd` and `gicr` unchanged but binds the SGI frame
pointer to `gicr_base + 0x80000` bytes - `gicr.offset(0x10000)` on a
`*mut u64` scales by 8 - not to the claimed (and documented)
`gicr_base + 0x10000` bytes. -/
theorem new_sgi_frame_offset_scaled_by_pointee :
    (GicV3.new 0x8000000 0x80A0000).gicd = 0x8000000 ∧
    (GicV3.new 0x8000000 0x80A0000).gicr = 0x80A0000 ∧
    (GicV3.new 0x8000000 0x80A0000).sgi = 0x80A0000 + 0x80000 ∧
    (GicV3.new 0x8000000 0x80A0000).sgi ≠ 0x80A0000 + 0x10000 := by
  decide

/-- C4: after `setup`, the Distributor control register holds exactly
`0b10010` (affinity routing bit 4 and Group-1-non-secure enable bit 1),
and `ICC_IGRPEN1_EL1` holds exactly 1, for every starting state and
every hardware-presented `waker` value. -/
theorem setup_ctlr_and_grpen1_values (env : Nat → Nat) (s : GicState) :
    (GicV3.setup env s).1.gicd_ctlr = 0b10010 ∧
    (GicV3.setup env s).1.icc_igrpen1_el1 = 1 := by
  exact ⟨rfl, rfl⟩

/-- C5: the bring-up writes of `setup` occur in exactly the order (1)
`ICC_CTLR_EL1 := 0`, (2) Distributor control register, (3) the wake
write to the Redistributor `waker` register, (4) the first 32-interrupt
group word, (5) `ICC_IGRPEN1_EL1 := 1`; in particular the group-delivery
enable (5) follows both the wake write (3) and the group configuration
(4). -/
theorem setup_actions_in_order (env : Nat → Nat) (s : GicState) :
    ((GicV3.setup env s).2.filter isSetupAction) =
      [MmioEvent.writeIccCtlr 0,
       MmioEvent.writeGicdCtlr 0b10010,
       MmioEvent.writeWaker (wakerRemove (env 0) PROCESSOR_SLEEP),
       MmioEvent.writeGicdIgroupr 0 0xffffffff,
       MmioEvent.writeIccIgrpen1 1] := by
  rfl

/-- C6: `setup` writes `0xffffffff` to `gicd.igroupr[0]` and leaves
every other group register word - the rest of `gicd.igroupr`, all of
`gicd.igroupr_e`, and the SGI-frame group registers - unchanged. -/
theorem setup_writes_only_igroupr0 (env : Nat → Nat) (s : GicState) :
    (GicV3.setup env s).1.gicd_igroupr 0 = 0xffffffff ∧
    (∀ i, i ≠ 0 → (GicV3.setup env s).1.gicd_igroupr i = s.gicd_igroupr i) ∧
    (GicV3.setup env s).1.gicd_igroupr_e = s.gicd_igroupr_e ∧
    (GicV3.setup env s).1.sgi_igroupr0 = s.sgi_igroupr0 ∧
    (GicV3.setup env s).1.sgi_igroupr_e = s.sgi_igroupr_e := by
  refine ⟨rfl, ?_, rfl, rfl, rfl⟩
  intro i hi
  simp [GicV3.setup, hi]

/-- Closed witness for `setup_writes_only_igroupr0` at a concrete
environment, state and index. -/
theorem setup_writes_only_igroupr0_witness :
    (GicV3.setup (fun _ => 0) zeroState).1.gicd_igroupr 5 =
      zeroState.gicd_igroupr 5 :=
  (setup_writes_only_igroupr0 (fun _ => 0) zeroState).2.1 5 (by decide)

/-- Bit 1 (`PROCESSOR_SLEEP`) of the written-back `waker` value is
clear. -/
theorem wakerRemove_testBit_one (v : Nat) :
    (wakerRemove v PROCESSOR_SLEEP).testBit 1 = false := by
  rw [wakerRemove, Nat.testBit_land]
  have hm : (U32_MASK ^^^ PROCESSOR_SLEEP).testBit 1 = false := by decide
  simp [hm]

/-- Every bit other than bit 1 survives `wakerRemove _ PROCESSOR_SLEEP`
unchanged (for `u32` values). -/
theorem wakerRemove_testBit_ne (v i : Nat) (hv : v < 2 ^ 32) (hi : i ≠ 1) :
    (wakerRemove v PROCESSOR_SLEEP).testBit i = v.testBit i := by
  rw [wakerRemove, Nat.testBit_land]
  by_cases h32 : i < 32
  · have h1 : U32_MASK = 2 ^ 32 - 1 := by decide
    have h2 : PROCESSOR_SLEEP = 2 ^ 1 := by decide
    have hm : (U32_MASK ^^^ PROCESSOR_SLEEP).testBit i = true := by
      rw [h1, h2, Nat.testBit_xor, Nat.testBit_two_pow_sub_one,
        Nat.testBit_two_pow_of_ne hi.symm]
      simp [h32]
    simp [hm]
  · have hv' : v.testBit i = false :=
      Nat.testBit_eq_false_of_lt
        (lt_of_lt_of_le hv (Nat.pow_le_pow_right (by norm_num) (by omega)))
    simp [hv']

/-- If `PROCESSOR_SLEEP` is already clear, the written-back value is the
read value exactly. -/
theorem wakerRemove_eq_self (v : Nat) (hv : v < 2 ^ 32)
    (h1 : v.testBit 1 = false) : wakerRemove v PROCESSOR_SLEEP = v := by
  apply Nat.eq_of_testBit_eq
  intro i
  by_cases hi : i = 1
  · subst hi
    rw [wakerRemove_testBit_one, h1]
  · exact wakerRemove_testBit_ne v i hv hi

/-- Recognises the `waker` writes of a trace. -/
def isWriteWaker : MmioEvent → Bool
  | MmioEvent.writeWaker _ => true
  | _ => false

/-- C10: the single `waker` write of `setup` carries exactly the value
just read with only the `PROCESSOR_SLEEP` bit (bit 1) removed: bit 1 of
the written value is clear, every other bit - `CHILDREN_ASLEEP` (bit 2)
included - equals the corresponding bit of the read value, and when
bit 1 was already clear the written value equals the read value
exactly. -/
theorem setup_waker_write_only_clears_sleep (env : Nat → Nat)
    (s : GicState) (hv : env 0 < 2 ^ 32) :
    (GicV3.setup env s).2.filter isWriteWaker =
      [MmioEvent.writeWaker (wakerRemove (env 0) PROCESSOR_SLEEP)] ∧
    (wakerRemove (env 0) PROCESSOR_SLEEP).testBit 1 = false ∧
    (∀ i, i ≠ 1 →
      (wakerRemove (env 0) PROCESSOR_SLEEP).testBit i = (env 0).testBit i) ∧
    ((env 0).testBit 1 = false →
      wakerRemove (env 0) PROCESSOR_SLEEP = env 0) := by
  exact ⟨rfl, wakerRemove_testBit_one _,
    fun i hi => wakerRemove_testBit_ne _ i hv hi,
    fun h1 => wakerRemove_eq_self _ hv h1⟩

/-- Closed witness for `setup_waker_write_only_clears_sleep` at the read
value 6 (both waker bits set): bit 1 of the written value is clear and
bit 2 is carried over. -/
theorem setup_waker_write_only_clears_sleep_witness :
    (wakerRemove 6 PROCESSOR_SLEEP).testBit 1 = false ∧
    (wakerRemove 6 PROCESSOR_SLEEP).testBit 2 = Nat.testBit 6 2 := by
  have h := setup_waker_write_only_clears_sleep (fun _ => 6) zeroState
    (by decide)
  exact ⟨h.2.1, h.2.2.1 2 (by decide)⟩

/-- A hardware environment is consistent with the wake handshake when
every `waker` read after the wake write agrees with the written value on
all bits except `CHILDREN_ASLEEP` (bit 2), which hardware clears on its
own schedule. -/
def wakerConsistent (env : Nat → Nat) : Prop :=
  ∀ k, 1 ≤ k →
    wakerRemove (env k) CHILDREN_ASLEEP =
      wakerRemove (wakerRemove (env 0) PROCESSOR_SLEEP) CHILDREN_ASLEEP

/-- The wake handshake eventually acknowledges: from some read on,
`CHILDREN_ASLEEP` reads as clear. -/
def eventuallyAcks (env : Nat → Nat) : Prop :=
  ∃ N, ∀ k, N ≤ k → (env k).testBit 2 = false

/-- The `waker` value observed by the first read issued after `setup`
returns: `setup` has consumed as many reads as its trace records. -/
def postSetupWakerRead (env : Nat → Nat) (s : GicState) : Nat :=
  env ((GicV3.setup env s).2.countP fun e => isReadWaker e)

/-- C2 as stated: whenever the hardware is consistent and eventually
acknowledges the wake handshake, a read of the `waker` register after
`setup` returns shows both `PROCESSOR_SLEEP` (bit 1) and
`CHILDREN_ASLEEP` (bit 2) clear. -/
def setupWakeClaim : Prop :=
  ∀ env s, wakerConsistent env → eventuallyAcks env →
    (postSetupWakerRead env s).testBit 1 = false ∧
    (postSetupWakerRead env s).testBit 2 = false

/-- A concrete hardware environment: the first read returns 6 (both
waker bits set); reads 1-5 return 4 (`CHILDREN_ASLEEP` still set); from
read 6 on the handshake is acknowledged and reads return 0. -/
def cexEnv : Nat → Nat :=
  fun k => if k = 0 then 6 else if k < 6 then 4 else 0

/-- C2 (refutation): `setup` performs no polling loop - its trace holds
exactly two `waker` reads - so under `cexEnv`, which is consistent and
acknowledges from read 6 on, the read issued after `setup` returns is
read 2 and still shows `CHILDREN_ASLEEP` set.  The claim as stated is
false of the code. -/
theorem setup_wake_claim_counterexample : ¬ setupWakeClaim := by
  intro h
  have hcons : wakerConsistent cexEnv := by
    intro k hk
    have hk0 : k ≠ 0 := by omega
    by_cases h6 : k < 6
    · have hv : cexEnv k = 4 := by simp [cexEnv, hk0, h6]
      rw [hv]
      decide
    · have hv : cexEnv k = 0 := by simp [cexEnv, hk0, h6]
      rw [hv]
      decide
  have hack : eventuallyAcks cexEnv := by
    refine ⟨6, fun k hk => ?_⟩
    have hk0 : k ≠ 0 := by omega
    have h6 : ¬ k < 6 := by omega
    have hv : cexEnv k = 0 := by simp [cexEnv, hk0, h6]
    rw [hv]
    decide
  have hmain := h cexEnv zeroState hcons hack
  exact absurd hmain.2 (by decide)

/-- C2 (amended): the wake step of `setup` reads the `waker` register,
removes `PROCESSOR_SLEEP` from the read value and writes it back, then
reads once more for the log - two reads in total, no polling loop.  When
`setup` returns, the `waker` register holds the read value with bit 1
(`PROCESSOR_SLEEP`) clear; `CHILDREN_ASLEEP` is not guaranteed clear. -/
theorem setup_wake_step_no_poll (env : Nat → Nat) (s : GicState) :
    (GicV3.setup env s).1.gicr_waker = wakerRemove (env 0) PROCESSOR_SLEEP ∧
    ((GicV3.setup env s).1.gicr_waker).testBit 1 = false ∧
    ((GicV3.setup env s).2.countP fun e => isReadWaker e) = 2 := by
  exact ⟨rfl, wakerRemove_testBit_one _, rfl⟩

/-- Modelled from the spec: `set_interrupt_priority` is called from
`main.rs` but its body is missing from the sources (the `GicV3` impl is
truncated).  The spec says it "writes the one-byte priority for the
given interrupt id into the correct register array (Distributor
extended/standard array for SPIs, SGI frame array for SGIs/PPIs) based
on id range", with the SGI frame serving ids 0-31 and the Distributor
extended array serving ids >= 8192 (indexed from the base of that
range). -/
def GicV3.set_interrupt_priority (intid priority : Nat) (s : GicState) :
    GicState :=
  if intid < 32 then
    { s with sgi_ipriorityr :=
        fun j => if j = intid then priority else s.sgi_ipriorityr j }
  else if intid < 8192 then
    { s with gicd_ipriorityr :=
        fun j => if j = intid then priority else s.gicd_ipriorityr j }
  else
    { s with gicd_ipriorityr_e :=
        fun j => if j = intid - 8192 then priority else s.gicd_ipriorityr_e j }

/-- C7: `set_interrupt_priority` round-trips through the priority array
selected by the id's range - SGI frame for ids 0-31, Distributor
standard array for 32-8191, Distributor extended array for ids >= 8192 -
and touches only the one byte of that array, leaving the other priority
arrays untouched. -/
theorem set_interrupt_priority_roundtrip (intid p : Nat) (s : GicState) :
    (intid < 32 →
      (GicV3.set_interrupt_priority intid p s).sgi_ipriorityr intid = p ∧
      (∀ j, j ≠ intid →
        (GicV3.set_interrupt_priority intid p s).sgi_ipriorityr j =
          s.sgi_ipriorityr j) ∧
      (GicV3.set_interrupt_priority intid p s).gicd_ipriorityr =
        s.gicd_ipriorityr ∧
      (GicV3.set_interrupt_priority intid p s).gicd_ipriorityr_e =
        s.gicd_ipriorityr_e) ∧
    (32 ≤ intid → intid < 8192 →
      (GicV3.set_interrupt_priority intid p s).gicd_ipriorityr intid = p ∧
      (∀ j, j ≠ intid →
        (GicV3.set_interrupt_priority intid p s).gicd_ipriorityr j =
          s.gicd_ipriorityr j) ∧
      (GicV3.set_interrupt_priority intid p s).sgi_ipriorityr =
        s.sgi_ipriorityr ∧
      (GicV3.set_interrupt_priority intid p s).gicd_ipriorityr_e =
        s.gicd_ipriorityr_e) ∧
    (8192 ≤ intid →
      (GicV3.set_interrupt_priority intid p s).gicd_ipriorityr_e
        (intid - 8192) = p ∧
      (∀ j, j ≠ intid - 8192 →
        (GicV3.set_interrupt_priority intid p s).gicd_ipriorityr_e j =
          s.gicd_ipriorityr_e j) ∧
      (GicV3.set_interrupt_priority intid p s).sgi_ipriorityr =
        s.sgi_ipriorityr ∧
      (GicV3.set_interrupt_priority intid p s).gicd_ipriorityr =
        s.gicd_ipriorityr) := by
  refine ⟨fun h => ?_, fun h1 h2 => ?_, fun h => ?_⟩
  · simp only [GicV3.set_interrupt_priority, if_pos h]
    exact ⟨by simp, fun j hj => by simp [hj], trivial, trivial⟩
  · have hn : ¬ intid < 32 := by omega
    simp only [GicV3.set_interrupt_priority, if_neg hn, if_pos h2]
    exact ⟨by simp, fun j hj => by simp [hj], trivial, trivial⟩
  · have hn : ¬ intid < 32 := by omega
    have hn2 : ¬ intid < 8192 := by omega
    simp only [GicV3.set_interrupt_priority, if_neg hn, if_neg hn2]
    exact ⟨by simp, fun j hj => by simp [hj], trivial, trivial⟩

/-- Closed witness for `set_interrupt_priority_roundtrip` in each of the
three id ranges. -/
theorem set_interrupt_priority_roundtrip_witness :
    (GicV3.set_interrupt_priority 5 0x80 zeroState).sgi_ipriorityr 5 =
      0x80 ∧
    (GicV3.set_interrupt_priority 40 0x70 zeroState).gicd_ipriorityr 40 =
      0x70 ∧
    (GicV3.set_interrupt_priority 8200 0x60 zeroState).gicd_ipriorityr_e 8 =
      0x60 :=
  ⟨((set_interrupt_priority_roundtrip 5 0x80 zeroState).1 (by decide)).1,
   ((set_interrupt_priority_roundtrip 40 0x70 zeroState).2.1 (by decide)
     (by decide)).1,
   ((set_interrupt_priority_roundtrip 8200 0x60 zeroState).2.2
     (by decide)).1⟩

/-- The `Trigger` enum of the driver: whether an interrupt line is
edge- or level-sensitive. -/
inductive Trigger
  | Edge
  | Level
deriving Repr, DecidableEq

/-- Bit position of the trigger bit of `intid` inside its 16-interrupt
configuration word: the high bit of the id's 2-bit field. -/
def cfgBit (intid : Nat) : Nat := 2 * (intid % 16) + 1

/-- Set bit `b` of a word. -/
def setBit32 (w b : Nat) : Nat := w ||| 2 ^ b

/-- Clear bit `b` of a `u32` word. -/
def clearBit32 (w b : Nat) : Nat := w &&& ((2 ^ 32 - 1) ^^^ 2 ^ b)

/-- The write a trigger choice performs on a configuration word: Edge
sets the trigger bit, Level clears it; no other bit is involved. -/
def triggerApply : Trigger → Nat → Nat → Nat
  | Trigger.Edge, w, b => setBit32 w b
  | Trigger.Level, w, b => clearBit32 w b

/-- Modelled from the spec: `set_trigger` is called from `main.rs` but
its body is missing from the sources (the `GicV3` impl is truncated).
The spec says it "writes the 2-bit edge/level configuration for the
given id into the correct configuration register, leaving the other bit
of the pair (reserved) untouched": the SGI-frame configuration words
serve ids 0-31, the Distributor words the rest, the word index is
`intid / 16` and only the trigger bit of the id's 2-bit field is set
(Edge) or cleared (Level). -/
def GicV3.set_trigger (intid : Nat) (t : Trigger) (s : GicState) :
    GicState :=
  if intid < 32 then
    { s with sgi_icfgr := fun j =>
        if j = intid / 16 then triggerApply t (s.sgi_icfgr j) (cfgBit intid)
        else s.sgi_icfgr j }
  else
    { s with gicd_icfgr := fun j =>
        if j = intid / 16 then triggerApply t (s.gicd_icfgr j) (cfgBit intid)
        else s.gicd_icfgr j }

/-- The configuration word holding the 2-bit field of `intid`. -/
def cfgWord (intid : Nat) (s : GicState) : Nat :=
  if intid < 32 then s.sgi_icfgr (intid / 16) else s.gicd_icfgr (intid / 16)

/-- Setting a bit makes it read as one. -/
theorem setBit32_testBit_self (w b : Nat) :
    (setBit32 w b).testBit b = true := by
  simp [setBit32, Nat.testBit_lor, Nat.testBit_two_pow_self]

/-- Setting a bit leaves every other bit unchanged. -/
theorem setBit32_testBit_ne (w b j : Nat) (hj : j ≠ b) :
    (setBit32 w b).testBit j = w.testBit j := by
  simp [setBit32, Nat.testBit_lor, Nat.testBit_two_pow_of_ne hj.symm]

/-- Clearing a bit makes it read as zero. -/
theorem clearBit32_testBit_self (w b : Nat) (hb : b < 32) :
    (clearBit32 w b).testBit b = false := by
  rw [clearBit32, Nat.testBit_land, Nat.testBit_xor,
    Nat.testBit_two_pow_sub_one, Nat.testBit_two_pow_self]
  simp [hb]

/-- Clearing a bit leaves every other bit of a `u32` word unchanged. -/
theorem clearBit32_testBit_ne (w b j : Nat) (hw : w < 2 ^ 32)
    (_hb : b < 32) (hj : j ≠ b) :
    (clearBit32 w b).testBit j = w.testBit j := by
  rw [clearBit32, Nat.testBit_land, Nat.testBit_xor,
    Nat.testBit_two_pow_sub_one, Nat.testBit_two_pow_of_ne hj.symm]
  by_cases h32 : j < 32
  · simp [h32]
  · have hv : w.testBit j = false :=
      Nat.testBit_eq_false_of_lt
        (lt_of_lt_of_le hw (Nat.pow_le_pow_right (by norm_num) (by omega)))
    simp [hv, h32]

/-- `triggerApply` changes no bit other than `b` (for `u32` words). -/
theorem triggerApply_testBit_ne (t : Trigger) (w b j : Nat)
    (hw : w < 2 ^ 32) (hb : b < 32) (hj : j ≠ b) :
    (triggerApply t w b).testBit j = w.testBit j := by
  cases t
  · exact setBit32_testBit_ne w b j hj
  · exact clearBit32_testBit_ne w b j hw hb hj

/-- `set_trigger` rewrites exactly the configuration word of the id's
range. -/
theorem set_trigger_cfgWord (intid : Nat) (t : Trigger) (s : GicState) :
    cfgWord intid (GicV3.set_trigger intid t s) =
      triggerApply t (cfgWord intid s) (cfgBit intid) := by
  by_cases h : intid < 32 <;> simp [cfgWord, GicV3.set_trigger, h]

/-- C8: for every interrupt id (over `u32`-valued configuration words),
`set_trigger(id, Edge)` makes the trigger bit of the id's 2-bit field
read as 1 and `set_trigger(id, Level)` as 0; the reserved low bit of the
pair, every other bit of the word, and the configuration words of every
other index - in both the SGI frame and the Distributor - are
unchanged. -/
theorem set_trigger_cfg_field (intid : Nat) (s : GicState)
    (hs : ∀ j, s.sgi_icfgr j < 2 ^ 32)
    (hg : ∀ j, s.gicd_icfgr j < 2 ^ 32) :
    (cfgWord intid (GicV3.set_trigger intid Trigger.Edge s)).testBit
        (cfgBit intid) = true ∧
    (cfgWord intid (GicV3.set_trigger intid Trigger.Level s)).testBit
        (cfgBit intid) = false ∧
    (∀ t : Trigger,
      (cfgWord intid (GicV3.set_trigger intid t s)).testBit
          (cfgBit intid - 1) =
        (cfgWord intid s).testBit (cfgBit intid - 1)) ∧
    (∀ t : Trigger, ∀ b, b ≠ cfgBit intid →
      (cfgWord intid (GicV3.set_trigger intid t s)).testBit b =
        (cfgWord intid s).testBit b) ∧
    (∀ t : Trigger, ∀ j, j ≠ intid / 16 →
      (GicV3.set_trigger intid t s).sgi_icfgr j = s.sgi_icfgr j ∧
      (GicV3.set_trigger intid t s).gicd_icfgr j = s.gicd_icfgr j) := by
  have hb : cfgBit intid < 32 := by
    unfold cfgBit
    omega
  have hw : cfgWord intid s < 2 ^ 32 := by
    unfold cfgWord
    split
    · exact hs _
    · exact hg _
  refine ⟨?_, ?_, ?_, ?_, ?_⟩
  · rw [set_trigger_cfgWord]
    exact setBit32_testBit_self _ _
  · rw [set_trigger_cfgWord]
    exact clearBit32_testBit_self _ _ hb
  · intro t
    rw [set_trigger_cfgWord]
    exact triggerApply_testBit_ne t _ _ _ hw hb (by unfold cfgBit; omega)
  · intro t b hbne
    rw [set_trigger_cfgWord]
    exact triggerApply_testBit_ne t _ _ _ hw hb hbne
  · intro t j hj
    by_cases h : intid < 32 <;>
      constructor <;> simp [GicV3.set_trigger, h, hj]

/-- Closed witness for `set_trigger_cfg_field` at id 2 (the PL031 SPI
of `main.rs`) on the all-zero state: Edge reads back 1, Level reads back
0, and the reserved bit stays 0. -/
theorem set_trigger_cfg_field_witness :
    (cfgWord 2 (GicV3.set_trigger 2 Trigger.Edge zeroState)).testBit
        (cfgBit 2) = true ∧
    (cfgWord 2 (GicV3.set_trigger 2 Trigger.Level zeroState)).testBit
        (cfgBit 2) = false ∧
    (cfgWord 2 (GicV3.set_trigger 2 Trigger.Edge zeroState)).testBit
        (cfgBit 2 - 1) = (cfgWord 2 zeroState).testBit (cfgBit 2 - 1) := by
  have h := set_trigger_cfg_field 2 zeroState
    (fun _ => by show (0 : Nat) < 2 ^ 32; norm_num)
    (fun _ => by show (0 : Nat) < 2 ^ 32; norm_num)
  exact ⟨h.1, h.2.1, h.2.2.1 Trigger.Edge⟩

/-- Modelled from the spec: `send_sgi` is called from `main.rs` but its
body is missing from the sources (the `GicV3` impl is truncated).  The
spec says it "issues a Software Generated Interrupt by writing the
encoded request (interrupt id, target CPU affinity, per-CPU target
bitmap) to the SGI-generation system register" and is fire-and-forget:
the one effect is the system-register write; no memory-mapped register
changes. -/
def GicV3.send_sgi (intid : Nat) (is_group1 : Bool)
    (aff3 aff2 aff1 target_list : Nat) (s : GicState) : GicState :=
  { s with icc_sgi1r_el1 :=
      target_list ||| (aff1 <<< 16) ||| (intid <<< 24) |||
        ((if is_group1 then 1 else 0) <<< 28) ||| (aff2 <<< 32) |||
        (aff3 <<< 48) }

/-- Modelled from the spec: `gicd_pending` "returns the raw 32-bit
pending bitmask for the requested register word" of the Distributor. -/
def GicV3.gicd_pending (s : GicState) (i : Nat) : Nat := s.gicd_ispendr i

/-- Modelled from the spec: `gicr_pending` returns the SGI-frame pending
word of the Redistributor. -/
def GicV3.gicr_pending (s : GicState) : Nat := s.sgi_ispendr0

/-- Modelled from the spec: `gicd_active` "returns the raw 32-bit active
bitmask for the requested register word" of the Distributor. -/
def GicV3.gicd_active (s : GicState) (i : Nat) : Nat := s.gicd_isactiver i

/-- Modelled from the spec: `gicr_active` returns the SGI-frame active
word of the Redistributor. -/
def GicV3.gicr_active (s : GicState) : Nat := s.sgi_isactiver0

/-- C9: `send_sgi` is fire-and-forget.  On any state in which no
interrupt is pending or active, `gicd_pending(0)`, `gicr_pending()`,
`gicd_active(0)` and `gicr_active()` return 0 both immediately before
and immediately after `send_sgi(3, false, 0, 0, 0, 1)`: the call changes
no pending or active register. -/
theorem send_sgi_fire_and_forget (s : GicState)
    (hp : GicV3.gicd_pending s 0 = 0) (hr : GicV3.gicr_pending s = 0)
    (ha : GicV3.gicd_active s 0 = 0) (hb : GicV3.gicr_active s = 0) :
    GicV3.gicd_pending s 0 = 0 ∧ GicV3.gicr_pending s = 0 ∧
    GicV3.gicd_active s 0 = 0 ∧ GicV3.gicr_active s = 0 ∧
    GicV3.gicd_pending (GicV3.send_sgi 3 false 0 0 0 1 s) 0 = 0 ∧
    GicV3.gicr_pending (GicV3.send_sgi 3 false 0 0 0 1 s) = 0 ∧
    GicV3.gicd_active (GicV3.send_sgi 3 false 0 0 0 1 s) 0 = 0 ∧
    GicV3.gicr_active (GicV3.send_sgi 3 false 0 0 0 1 s) = 0 := by
  exact ⟨hp, hr, ha, hb, hp, hr, ha, hb⟩

/-- Closed witness for `send_sgi_fire_and_forget` on the all-zero
state. -/
theorem send_sgi_fire_and_forget_witness :
    GicV3.gicd_pending (GicV3.send_sgi 3 false 0 0 0 1 zeroState) 0 = 0 ∧
    GicV3.gicr_pending (GicV3.send_sgi 3 false 0 0 0 1 zeroState) = 0 ∧
    GicV3.gicd_active (GicV3.send_sgi 3 false 0 0 0 1 zeroState) 0 = 0 ∧
    GicV3.gicr_active (GicV3.send_sgi 3 false 0 0 0 1 zeroState) = 0 := by
  have h := send_sgi_fire_and_forget zeroState rfl rfl rfl rfl
  exact ⟨h.2.2.2.2.1, h.2.2.2.2.2.1, h.2.2.2.2.2.2.1, h.2.2.2.2.2.2.2⟩
